import Mathlib

/-!
Verification of the contract-template byte-patching engine of
`algosdk/template.py` against its natural-language specification.

The embedding below translates the source functions into Lean:

* `put_uvarint` models the little-endian base-128 varint encoder
  (template.py lines 385-393).  The Python `while x >= 0x80` loop is
  embedded as structural recursion on a fuel argument; the fuel `x`
  always suffices because the loop variable shrinks by a factor of 128
  each iteration, and `put_uvarint_fuel_congr` below shows the result
  does not depend on the fuel once it is at least `x`.
* `inject` models the byte-patching engine (lines 396-434), including
  the in-place mutation of the caller-supplied `offsets` list: the Lean
  function returns the pair of the outcome (returned program or raised
  error) and the final contents of the `offsets` list.
* The five template classes are modelled as structures over the decoded
  byte constants of their precompiled programs.  External collaborators
  (`encoding.decode_address`, `base64` text codecs, `encoding.checksum`,
  `encoding.encode_address`) are out of scope per the specification;
  address and blob parameters are therefore carried in decoded form and
  the checksum/encode steps are taken as function parameters.

Machine integers do not occur: Python integers are unbounded and the
specification declares all numeric inputs unsigned, so `Nat` is used
throughout.
-/

/-- Varint encoder, from `put_uvarint` (template.py lines 385-393), with an
explicit fuel for the `while x >= 0x80` loop.  The byte appended inside the
loop is `(x &&& 0xFF) ||| 0x80` and the final byte is `x &&& 0xFF`, exactly
as in the source; the Python function appends to `buf` and returns the
number of bytes written, which here is the length of the returned list. -/
def put_uvarint_fuel : Nat → Nat → List Nat
  | 0, x => [x &&& 0xFF]
  | fuel + 1, x =>
    if 0x80 ≤ x then ((x &&& 0xFF) ||| 0x80) :: put_uvarint_fuel fuel (x >>> 7)
    else [x &&& 0xFF]

/-- The bytes `put_uvarint` appends to its buffer for the value `x`. -/
def put_uvarint (x : Nat) : List Nat :=
  put_uvarint_fuel x x

/-- Reference little-endian base-128 varint decoder: each byte contributes
its low 7 bits; a byte below `0x80` terminates the value. -/
def uvarint_decode : List Nat → Nat
  | [] => 0
  | b :: rest => if b < 128 then b else b % 128 + 128 * uvarint_decode rest

theorem and_255_eq_mod (x : Nat) : x &&& 255 = x % 256 := by
  have h := Nat.and_pow_two_sub_one_eq_mod x 8
  norm_num at h
  exact h

set_option maxRecDepth 4096 in
theorem lor_128_of_lt : ∀ a : Nat, a < 256 → a ||| 128 = a % 128 + 128 := by
  decide

theorem put_uvarint_fuel_ne_nil : ∀ fuel x, put_uvarint_fuel fuel x ≠ [] := by
  intro fuel x
  cases fuel with
  | zero => simp [put_uvarint_fuel]
  | succ n => simp only [put_uvarint_fuel]; split <;> simp

theorem put_uvarint_length_pos (x : Nat) : 0 < (put_uvarint x).length := by
  have h := put_uvarint_fuel_ne_nil x x
  cases hx : put_uvarint x with
  | nil => exact absurd hx h
  | cons a l => simp

theorem put_uvarint_fuel_congr :
    ∀ f g x : Nat, x ≤ f → x ≤ g → put_uvarint_fuel f x = put_uvarint_fuel g x := by
  intro f
  induction f with
  | zero =>
    intro g x hf _
    have hx : x = 0 := Nat.le_zero.mp hf
    subst hx
    cases g with
    | zero => rfl
    | succ n => simp [put_uvarint_fuel]
  | succ n ih =>
    intro g x hf hg
    cases g with
    | zero =>
      have hx : x = 0 := Nat.le_zero.mp hg
      subst hx
      simp [put_uvarint_fuel]
    | succ m =>
      simp only [put_uvarint_fuel]
      by_cases h : 0x80 ≤ x
      · have hdiv : x >>> 7 = x / 128 := by
          rw [Nat.shiftRight_eq_div_pow]
        have hlt : x / 128 < x := Nat.div_lt_self (by omega) (by norm_num)
        rw [if_pos h, if_pos h, ih m (x >>> 7) (by omega) (by omega)]
      · rw [if_neg h, if_neg h]

theorem uvarint_round_trip_fuel :
    ∀ fuel x, x ≤ fuel → uvarint_decode (put_uvarint_fuel fuel x) = x := by
  intro fuel
  induction fuel with
  | zero =>
    intro x hx
    have h0 : x = 0 := Nat.le_zero.mp hx
    subst h0
    simp [put_uvarint_fuel, uvarint_decode]
  | succ n ih =>
    intro x hx
    by_cases h : 0x80 ≤ x
    · have hcap : x % 256 < 256 := Nat.mod_lt _ (by norm_num)
      have hb : (x &&& 255) ||| 128 = x % 128 + 128 := by
        rw [and_255_eq_mod, lor_128_of_lt (x % 256) hcap,
          Nat.mod_mod_of_dvd x (by norm_num : (128 : Nat) ∣ 256)]
      have hdiv : x >>> 7 = x / 128 := by
        rw [Nat.shiftRight_eq_div_pow]
      have hrec : uvarint_decode (put_uvarint_fuel n (x >>> 7)) = x >>> 7 := by
        apply ih
        rw [hdiv]
        have := Nat.div_lt_self (show 0 < x by omega) (show 1 < 128 by norm_num)
        omega
      simp only [put_uvarint_fuel, if_pos h, uvarint_decode, hb]
      rw [if_neg (by omega : ¬(x % 128 + 128 < 128)), hrec, hdiv]
      have hm : (x % 128 + 128) % 128 = x % 128 := by omega
      rw [hm]
      exact Nat.mod_add_div x 128
    · have hx128 : x < 128 := by omega
      have hband : x &&& 255 = x := by
        rw [and_255_eq_mod]
        exact Nat.mod_eq_of_lt (by omega)
      simp only [put_uvarint_fuel, if_neg h, uvarint_decode, hband]
      rw [if_pos hx128]

/-- C4: the varint encoder is deterministic (equal inputs give byte-identical
encodings), the reference decoder inverts it on every unsigned integer, and
zero is encoded as exactly the single byte `0`, not elided. -/
theorem put_uvarint_round_trip :
    (∀ x y : Nat, x = y → put_uvarint x = put_uvarint y) ∧
    (∀ x : Nat, uvarint_decode (put_uvarint x) = x) ∧
    put_uvarint 0 = [0] := by
  refine ⟨fun x y h => congrArg put_uvarint h, fun x => ?_, rfl⟩
  exact uvarint_round_trip_fuel x x (Nat.le_refl x)

/-- C4 witness: the round-trip law instantiated at the concrete inputs 3,
300 and 0. -/
theorem put_uvarint_round_trip_witness :
    put_uvarint 3 = put_uvarint 3 ∧ uvarint_decode (put_uvarint 300) = 300 :=
  ⟨put_uvarint_round_trip.1 3 3 rfl, put_uvarint_round_trip.2.1 300⟩

/-- Caller-supplied parameter value as seen by `inject` after the external
codecs have run: an unsigned integer, a decoded 32-byte address
(`encoding.decode_address` is an external collaborator), or a decoded byte
blob (`base64.b64decode` is an external collaborator). -/
inductive TValue
  | int (n : Nat)
  | addr (a : List Nat)
  | blob (b : List Nat)
deriving DecidableEq

/-- Entry of the `values_types` list: the Python type object `int`, the
strings `"address"` and `"base64"`, or anything else (which `inject`
rejects). -/
inductive VType
  | int
  | address
  | base64
  | other
deriving DecidableEq

/-- Failures `inject` can raise: the `assert` on the three lengths, the
`Exception("Unkown Type")` for an unrecognized kind, and the `TypeError`
Python raises when a value of the wrong shape reaches an encoder. -/
inductive InjectError
  | assertionError
  | unknownType
  | typeMismatch
deriving DecidableEq

/-- Outcome of a call to `inject`: the returned program or the raised
error. -/
inductive InjectResult
  | ok (program : List Nat)
  | error (e : InjectError)
deriving DecidableEq

/-- The inner `replace` helper (template.py lines 402-403):
`arr[:offset] + new_val + arr[offset + place_holder_length:]`.  Python
slicing clips at the ends exactly as `List.take` / `List.drop` do. -/
def replace (arr new_val : List Nat) (offset place_holder_length : Nat) : List Nat :=
  arr.take offset ++ new_val ++ arr.drop (offset + place_holder_length)

/-- The offset-update step (template.py lines 430-432): when `dec_len` is
nonzero, every entry of the offsets list is increased in place by
`dec_len - 1`. -/
def updateOffsets (offsets : List Nat) (dec_len : Nat) : List Nat :=
  if dec_len ≠ 0 then offsets.map (fun o => o + (dec_len - 1)) else offsets

/-- The `for i in range(len(offsets))` loop of `inject`.  `count` is the
number of remaining iterations (Python evaluates `range(len(offsets))`
once, before any mutation), `i` the current index, `res` the program being
patched and `offsets` the current contents of the caller's offsets list.
The returned pair is the outcome together with the final contents of the
offsets list, which the Python code mutates in place. -/
def injectLoop (values : List TValue) (values_types : List VType) :
    Nat → Nat → List Nat → List Nat → InjectResult × List Nat
  | 0, _, res, offsets => (InjectResult.ok res, offsets)
  | count + 1, i, res, offsets =>
    match values_types.getD i VType.other, values.getD i (TValue.int 0) with
    | VType.int, TValue.int v =>
      let buf := put_uvarint v
      injectLoop values values_types count (i + 1)
        (replace res buf (offsets.getD i 0) 1)
        (updateOffsets offsets buf.length)
    | VType.address, TValue.addr a =>
      injectLoop values values_types count (i + 1)
        (replace res a (offsets.getD i 0) 32)
        (updateOffsets offsets 0)
    | VType.base64, TValue.blob b =>
      let lenbuf := put_uvarint b.length
      injectLoop values values_types count (i + 1)
        (replace res (lenbuf ++ b) (offsets.getD i 0) 2)
        (updateOffsets offsets (lenbuf.length + b.length))
    | VType.other, _ => (InjectResult.error InjectError.unknownType, offsets)
    | _, _ => (InjectResult.error InjectError.typeMismatch, offsets)

/-- The patch engine `inject` (template.py lines 396-434).  The first
component of the result is the returned program (`res` starts as a copy of
`orig`, so `orig` itself is never written) or the raised error; the second
component is the final contents of the caller-supplied `offsets` list. -/
def inject (orig offsets : List Nat) (values : List TValue)
    (values_types : List VType) : InjectResult × List Nat :=
  if offsets.length = values.length ∧ values.length = values_types.length then
    injectLoop values values_types offsets.length 0 orig offsets
  else (InjectResult.error InjectError.assertionError, offsets)

/-- Accumulated shift the loop applies to every entry of the offsets list,
from iteration `i` for `count` iterations, stopping where the loop stops:
each completed substitution with nonzero `dec_len` contributes
`dec_len - 1`. -/
def shiftsFromCount (values : List TValue) (values_types : List VType) :
    Nat → Nat → Nat
  | 0, _ => 0
  | count + 1, i =>
    match values_types.getD i VType.other, values.getD i (TValue.int 0) with
    | VType.int, TValue.int v =>
      ((put_uvarint v).length - 1) + shiftsFromCount values values_types count (i + 1)
    | VType.address, TValue.addr _ =>
      shiftsFromCount values values_types count (i + 1)
    | VType.base64, TValue.blob b =>
      (((put_uvarint b.length).length + b.length) - 1) +
        shiftsFromCount values values_types count (i + 1)
    | _, _ => 0

theorem injectLoop_offsets (values : List TValue) (values_types : List VType) :
    ∀ count i res offsets,
      (injectLoop values values_types count i res offsets).2
        = offsets.map (fun o => o + shiftsFromCount values values_types count i) := by
  intro count
  induction count with
  | zero =>
    intro i res offsets
    simp [injectLoop, shiftsFromCount]
  | succ n ih =>
    intro i res offsets
    rcases h1 : values_types.getD i VType.other with _ | _ | _ | _ <;>
      rcases h2 : values.getD i (TValue.int 0) with v | a | b <;>
        simp only [injectLoop, shiftsFromCount, h1, h2] <;>
          try simp
    · -- int / int
      rw [ih]
      have hpos : (put_uvarint v).length ≠ 0 :=
        Nat.pos_iff_ne_zero.mp (put_uvarint_length_pos v)
      simp [updateOffsets, hpos, List.map_map, Function.comp, Nat.add_assoc]
    · -- address / addr
      rw [ih]
      simp [updateOffsets]
    · -- base64 / blob
      rw [ih]
      have hpos : (put_uvarint b.length).length + b.length ≠ 0 := by
        have := put_uvarint_length_pos b.length
        omega
      simp [updateOffsets, hpos, List.map_map, Function.comp, Nat.add_assoc]

/-- C1 counterexample: for a length-prefixed-bytes placeholder whose encoded
width equals its reserved width of 2 bytes (a one-byte blob, so the length
delta N is 0), the engine still shifts the later placeholder by one byte:
the later varint patch is applied at original offset 4 + 1, not at
4 + N = 4 as the claim states, so the output differs from the
claim-predicted program. -/
theorem inject_cascade_counterexample :
    (inject [1, 2, 3, 4, 5, 6] [1, 4] [TValue.blob [170], TValue.int 7]
        [VType.base64, VType.int]).1
      = InjectResult.ok [1, 1, 170, 4, 5, 7] ∧
    InjectResult.ok [1, 1, 170, 4, 5, 7] ≠
      InjectResult.ok
        (replace (replace [1, 2, 3, 4, 5, 6] (put_uvarint 1 ++ [170]) 1 2)
          (put_uvarint 7)
          (4 + (((put_uvarint 1).length + [170].length) - 2)) 1) := by
  decide

/-- C1 amended: after a substitution with nonzero `dec_len` the engine adds
`dec_len - 1` to every later offset, uniformly for all kinds.  For a varint
placeholder (reserved width 1) this is the claimed excess N; for an address
placeholder the shift is 0 as claimed; but for a length-prefixed-bytes
placeholder (reserved width 2, encoded width `varintLength(blobLen) +
blobLen`) the later patch is applied at its original offset plus N + 1,
one more than the claimed excess N.  The three conjuncts exhibit, for each
encoding kind in first position, exactly where the second patch lands and
the final contents of the mutated offsets list. -/
theorem inject_cascade_shift :
    (∀ (orig : List Nat) (o1 o2 v1 v2 : Nat),
      inject orig [o1, o2] [TValue.int v1, TValue.int v2] [VType.int, VType.int]
        = (InjectResult.ok
            (replace (replace orig (put_uvarint v1) o1 1)
              (put_uvarint v2) (o2 + ((put_uvarint v1).length - 1)) 1),
           [o1 + ((put_uvarint v1).length - 1) + ((put_uvarint v2).length - 1),
            o2 + ((put_uvarint v1).length - 1) + ((put_uvarint v2).length - 1)])) ∧
    (∀ (orig a : List Nat) (o1 o2 v2 : Nat),
      inject orig [o1, o2] [TValue.addr a, TValue.int v2] [VType.address, VType.int]
        = (InjectResult.ok
            (replace (replace orig a o1 32) (put_uvarint v2) o2 1),
           [o1 + ((put_uvarint v2).length - 1),
            o2 + ((put_uvarint v2).length - 1)])) ∧
    (∀ (orig b : List Nat) (o1 o2 v2 : Nat),
      inject orig [o1, o2] [TValue.blob b, TValue.int v2] [VType.base64, VType.int]
        = (InjectResult.ok
            (replace (replace orig (put_uvarint b.length ++ b) o1 2)
              (put_uvarint v2)
              (o2 + (((put_uvarint b.length).length + b.length) - 1)) 1),
           [o1 + (((put_uvarint b.length).length + b.length) - 1) + ((put_uvarint v2).length - 1),
            o2 + (((put_uvarint b.length).length + b.length) - 1) + ((put_uvarint v2).length - 1)])) := by
  refine ⟨fun orig o1 o2 v1 v2 => ?_, fun orig a o1 o2 v2 => ?_, fun orig b o1 o2 v2 => ?_⟩
  · have h1 : (put_uvarint v1).length ≠ 0 := by
      have := put_uvarint_length_pos v1; omega
    have h2 : (put_uvarint v2).length ≠ 0 := by
      have := put_uvarint_length_pos v2; omega
    simp [inject, injectLoop, updateOffsets, h1, h2]
  · have h2 : (put_uvarint v2).length ≠ 0 := by
      have := put_uvarint_length_pos v2; omega
    simp [inject, injectLoop, updateOffsets, h2]
  · have h1 : (put_uvarint b.length).length + b.length ≠ 0 := by
      have := put_uvarint_length_pos b.length; omega
    have h2 : (put_uvarint v2).length ≠ 0 := by
      have := put_uvarint_length_pos v2; omega
    simp [inject, injectLoop, updateOffsets, h1, h2]

/-- Reserved placeholder width consumed by one loop iteration for a given
kind and value: 1 for a varint, 32 for an address, 2 for a length-prefixed
blob. -/
def widthOf : VType → TValue → Nat
  | VType.int, TValue.int _ => 1
  | VType.address, TValue.addr _ => 32
  | VType.base64, TValue.blob _ => 2
  | _, _ => 0

/-- Number of bytes one loop iteration writes in place of the reserved
placeholder. -/
def encLenOf : VType → TValue → Nat
  | VType.int, TValue.int v => (put_uvarint v).length
  | VType.address, TValue.addr a => a.length
  | VType.base64, TValue.blob b => (put_uvarint b.length).length + b.length
  | _, _ => 0

/-- Reserved placeholder widths summed from iteration `i` for `count`
iterations. -/
def sumWidths (values : List TValue) (values_types : List VType) :
    Nat → Nat → Nat
  | 0, _ => 0
  | count + 1, i =>
    widthOf (values_types.getD i VType.other) (values.getD i (TValue.int 0)) +
      sumWidths values values_types count (i + 1)

/-- Encoded widths summed from iteration `i` for `count` iterations. -/
def sumEncs (values : List TValue) (values_types : List VType) :
    Nat → Nat → Nat
  | 0, _ => 0
  | count + 1, i =>
    encLenOf (values_types.getD i VType.other) (values.getD i (TValue.int 0)) +
      sumEncs values values_types count (i + 1)

/-- In-bounds check for the sequence of patches the loop performs: at each
iteration the patched region (current offset entry plus reserved width)
must lie inside the current program, whose length `L` is threaded through
exactly as the loop transforms it.  Python slicing would silently clip an
out-of-range patch, which is what breaks the length postcondition. -/
def boundsOkCount (values : List TValue) (values_types : List VType) :
    Nat → Nat → Nat → List Nat → Bool
  | 0, _, _, _ => true
  | count + 1, i, L, offsets =>
    match values_types.getD i VType.other, values.getD i (TValue.int 0) with
    | VType.int, TValue.int v =>
      decide (offsets.getD i 0 + 1 ≤ L) &&
        boundsOkCount values values_types count (i + 1)
          (L + (put_uvarint v).length - 1)
          (updateOffsets offsets (put_uvarint v).length)
    | VType.address, TValue.addr a =>
      decide (offsets.getD i 0 + 32 ≤ L) &&
        boundsOkCount values values_types count (i + 1)
          (L + a.length - 32) (updateOffsets offsets 0)
    | VType.base64, TValue.blob b =>
      decide (offsets.getD i 0 + 2 ≤ L) &&
        boundsOkCount values values_types count (i + 1)
          (L + ((put_uvarint b.length).length + b.length) - 2)
          (updateOffsets offsets ((put_uvarint b.length).length + b.length))
    | _, _ => true

theorem replace_length (arr new_val : List Nat) (o w : Nat)
    (h : o + w ≤ arr.length) :
    (replace arr new_val o w).length + w = arr.length + new_val.length := by
  simp only [replace, List.length_append, List.length_take, List.length_drop]
  omega

theorem injectLoop_length (values : List TValue) (values_types : List VType) :
    ∀ count i res offsets r,
      boundsOkCount values values_types count i res.length offsets = true →
      (injectLoop values values_types count i res offsets).1 = InjectResult.ok r →
      r.length + sumWidths values values_types count i
        = res.length + sumEncs values values_types count i := by
  intro count
  induction count with
  | zero =>
    intro i res offsets r _ hok
    simp only [injectLoop] at hok
    cases hok
    simp [sumWidths, sumEncs]
  | succ n ih =>
    intro i res offsets r hb hok
    rcases h1 : values_types.getD i VType.other with _ | _ | _ | _ <;>
      rcases h2 : values.getD i (TValue.int 0) with v | a | b <;>
        simp only [injectLoop, boundsOkCount, sumWidths, sumEncs, widthOf,
          encLenOf, h1, h2, Bool.and_eq_true, decide_eq_true_eq] at hb hok ⊢ <;>
          try cases hok
    · -- int / int
      obtain ⟨hbound, hrest⟩ := hb
      have hlen := replace_length res (put_uvarint v) (offsets.getD i 0) 1 hbound
      have hre : (replace res (put_uvarint v) (offsets.getD i 0) 1).length
          = res.length + (put_uvarint v).length - 1 := by omega
      rw [← hre] at hrest
      have := ih (i + 1) (replace res (put_uvarint v) (offsets.getD i 0) 1)
        (updateOffsets offsets (put_uvarint v).length) r hrest hok
      omega
    · -- address / addr
      obtain ⟨hbound, hrest⟩ := hb
      have hlen := replace_length res a (offsets.getD i 0) 32 hbound
      have hre : (replace res a (offsets.getD i 0) 32).length
          = res.length + a.length - 32 := by omega
      rw [← hre] at hrest
      have := ih (i + 1) (replace res a (offsets.getD i 0) 32)
        (updateOffsets offsets 0) r hrest hok
      omega
    · -- base64 / blob
      obtain ⟨hbound, hrest⟩ := hb
      have hlen := replace_length res (put_uvarint b.length ++ b)
        (offsets.getD i 0) 2 hbound
      have hx : (put_uvarint b.length ++ b).length
          = (put_uvarint b.length).length + b.length := by
        simp
      have hre : (replace res (put_uvarint b.length ++ b) (offsets.getD i 0) 2).length
          = res.length + ((put_uvarint b.length).length + b.length) - 2 := by
        omega
      rw [← hre] at hrest
      have hfin := ih (i + 1)
        (replace res (put_uvarint b.length ++ b) (offsets.getD i 0) 2)
        (updateOffsets offsets ((put_uvarint b.length).length + b.length)) r hrest hok
      omega

/-- C2 counterexample: a length-prefixed-bytes placeholder whose encoded
width equals its reserved width (delta 0) followed by a varint placeholder
of delta 0: the claimed output length is the original length 4, but the
one-byte-too-far cascade shift pushes the final varint patch past the end
of the program, where Python slicing appends it, producing length 5. -/
theorem inject_length_postcondition_counterexample :
    (inject [1, 2, 3, 4] [1, 3] [TValue.blob [170], TValue.int 7]
        [VType.base64, VType.int]).1
      = InjectResult.ok [1, 1, 170, 4, 7] ∧
    ([1, 1, 170, 4, 7] : List Nat).length
      ≠ ([1, 2, 3, 4] : List Nat).length
          + ((((put_uvarint ([170] : List Nat).length).length + ([170] : List Nat).length) - 2)
              + ((put_uvarint 7).length - 1)) := by
  decide

/-- C2 amended: when every patch lands inside the current program under the
engine's actual shift convention (`boundsOkCount`), the returned program
satisfies the length postcondition in the form `len(out) + sum of reserved
widths = len(orig) + sum of encoded widths`, i.e. original length plus the
sum of per-placeholder length deltas.  The claimed per-kind patch positions
(original offset plus accumulated delta) and the untouched-outside-regions
clause do not hold as stated, because the cascade shifts later offsets by
`dec_len - 1` rather than by the length delta after a length-prefixed
substitution (see the counterexample). -/
theorem inject_length_postcondition_amended :
    ∀ (orig offsets : List Nat) (values : List TValue)
      (values_types : List VType) (r : List Nat),
      offsets.length = values.length → values.length = values_types.length →
      boundsOkCount values values_types offsets.length 0 orig.length offsets = true →
      (inject orig offsets values values_types).1 = InjectResult.ok r →
      r.length + sumWidths values values_types offsets.length 0
        = orig.length + sumEncs values values_types offsets.length 0 := by
  intro orig offsets values values_types r h1 h2 hb hok
  unfold inject at hok
  rw [if_pos (And.intro h1 h2)] at hok
  exact injectLoop_length values values_types offsets.length 0 orig offsets r hb hok

/-- C2 amended witness: the length postcondition instantiated on a concrete
in-bounds call with a length-prefixed and a varint placeholder. -/
theorem inject_length_postcondition_amended_witness :
    ([1, 1, 170, 4, 5, 7] : List Nat).length
        + sumWidths [TValue.blob [170], TValue.int 7] [VType.base64, VType.int] 2 0
      = ([1, 2, 3, 4, 5, 6] : List Nat).length
        + sumEncs [TValue.blob [170], TValue.int 7] [VType.base64, VType.int] 2 0 :=
  inject_length_postcondition_amended [1, 2, 3, 4, 5, 6] [1, 4]
    [TValue.blob [170], TValue.int 7] [VType.base64, VType.int]
    [1, 1, 170, 4, 5, 7] (by decide) (by decide) (by decide) (by decide)

/-- C6 counterexample: a failing call (unknown encoding kind in second
position) raises after the first substitution has already shifted the
caller-supplied offsets list in place: the list ends as `[1, 2]`, not the
original `[0, 1]`, so a caller-supplied argument is left mutated. -/
theorem inject_offsets_mutated_on_error :
    (inject [0, 0, 0] [0, 1] [TValue.int 128, TValue.int 0]
        [VType.int, VType.other]).1 = InjectResult.error InjectError.unknownType ∧
    (inject [0, 0, 0] [0, 1] [TValue.int 128, TValue.int 0]
        [VType.int, VType.other]).2 ≠ [0, 1] := by
  decide

/-- C6 amended: every failure is raised at its point of detection and no
partial program is returned; a count mismatch is detected before any work,
leaving the offsets list untouched; but on an error detected mid-loop the
caller-supplied offsets list retains the in-place shifts of the
substitutions already performed (`shiftsFromCount` accumulates the shifts
of exactly the iterations completed before the loop stopped). -/
theorem inject_error_atomicity_amended :
    (∀ (orig offsets : List Nat) (values : List TValue)
        (values_types : List VType),
        ¬(offsets.length = values.length ∧ values.length = values_types.length) →
        inject orig offsets values values_types
          = (InjectResult.error InjectError.assertionError, offsets)) ∧
    (∀ (orig offsets : List Nat) (values : List TValue)
        (values_types : List VType),
        offsets.length = values.length → values.length = values_types.length →
        (inject orig offsets values values_types).2
          = offsets.map
              (fun o => o + shiftsFromCount values values_types offsets.length 0)) := by
  constructor
  · intro orig offsets values values_types h
    unfold inject
    rw [if_neg h]
  · intro orig offsets values values_types h1 h2
    unfold inject
    rw [if_pos (And.intro h1 h2)]
    exact injectLoop_offsets values values_types offsets.length 0 orig offsets

/-- C6 amended witness: the mismatch clause at a concrete shape mismatch and
the offsets clause at the concrete failing call of the counterexample. -/
theorem inject_error_atomicity_amended_witness :
    inject [0] [0, 1] [TValue.int 1] [VType.int]
        = (InjectResult.error InjectError.assertionError, [0, 1]) ∧
    (inject [0, 0, 0] [0, 1] [TValue.int 128, TValue.int 0]
        [VType.int, VType.other]).2
      = [0, 1].map
          (fun o => o + shiftsFromCount [TValue.int 128, TValue.int 0]
            [VType.int, VType.other] 2 0) :=
  ⟨inject_error_atomicity_amended.1 [0] [0, 1] [TValue.int 1] [VType.int]
      (by decide),
   inject_error_atomicity_amended.2 [0, 0, 0] [0, 1]
     [TValue.int 128, TValue.int 0] [VType.int, VType.other]
     (by decide) (by decide)⟩

/-- C10 counterexample: two successful calls whose substitution has nonzero
`dec_len`, after which a second call on the same offsets list returns the
same program, contradicting the claimed consequence that it differs.
First, a one-byte varint has `dec_len = 1` but shift `dec_len - 1 = 0`, so
the list is value-unchanged and the second call is identical.  Second,
even a nonzero accumulated shift need not change the program: an offset
already past the end of the program keeps clipping to an append after the
shift, so the first and second calls return the same bytes although the
list was mutated from `[5]` to `[6]`. -/
theorem inject_second_call_can_agree :
    ((put_uvarint 5).length ≠ 0 ∧
      (inject [9, 9] [0] [TValue.int 5] [VType.int]).2 = [0] ∧
      inject [9, 9] ((inject [9, 9] [0] [TValue.int 5] [VType.int]).2)
          [TValue.int 5] [VType.int]
        = inject [9, 9] [0] [TValue.int 5] [VType.int]) ∧
    ((inject [] [5] [TValue.int 200] [VType.int]).2 = [6] ∧
      (inject [] [6] [TValue.int 200] [VType.int]).1
        = (inject [] [5] [TValue.int 200] [VType.int]).1) := by
  decide

/-- C10 amended: `inject` patches a copy of the original program (the model
returns the program as a value and takes `orig` unchanged), and it mutates
the caller-supplied offsets list in place: after a successful call every
entry has been increased by the accumulated per-substitution shift
`dec_len - 1`; consequently a second call on the same list can return a
different program than the first, as in the concrete in-bounds
multi-byte-varint call below, but need not: with zero accumulated shift
the list is value-unchanged, and even a nonzero shift leaves the program
unchanged when the shifted patch clips (see the counterexample). -/
theorem inject_offsets_frame_amended :
    (∀ (orig offsets : List Nat) (values : List TValue)
        (values_types : List VType) (p : List Nat),
        offsets.length = values.length → values.length = values_types.length →
        (inject orig offsets values values_types).1 = InjectResult.ok p →
        (inject orig offsets values values_types).2
          = offsets.map
              (fun o => o + shiftsFromCount values values_types offsets.length 0)) ∧
    ((inject [9, 9] [0] [TValue.int 200] [VType.int]).2 = [1] ∧
      (inject [9, 9] [1] [TValue.int 200] [VType.int]).1
        ≠ (inject [9, 9] [0] [TValue.int 200] [VType.int]).1) := by
  constructor
  · intro orig offsets values values_types p h1 h2 _
    unfold inject
    rw [if_pos (And.intro h1 h2)]
    exact injectLoop_offsets values values_types offsets.length 0 orig offsets
  · decide

/-- C10 amended witness: the offsets relation instantiated on the concrete
successful two-byte-varint call. -/
theorem inject_offsets_frame_amended_witness :
    (inject [9, 9] [0] [TValue.int 200] [VType.int]).2
      = [0].map (fun o => o + shiftsFromCount [TValue.int 200] [VType.int] 1 0) :=
  inject_offsets_frame_amended.1 [9, 9] [0] [TValue.int 200] [VType.int]
    [200, 1, 9] (by decide) (by decide) (by decide)

/-- Python round-half-to-even applied to the exact quotient `num / den`.
The source line 110 computes `round(amount / ratd * ratn)` with IEEE-754
double division and multiplication before rounding; this model evaluates
the exact rational instead.  No theorem below settles a claim against this
branch's numeric value: the floating-point behaviour of the source is
outside the embedding. -/
def round_half_even_div (num den : Nat) : Nat :=
  if 2 * (num % den) < den then num / den
  else if den < 2 * (num % den) then num / den + 1
  else if (num / den) % 2 = 0 then num / den else num / den + 1

/-- Outcome of the amount-splitting prefix of
`Split.get_send_funds_transaction`: the two computed amounts, or one of
the exceptions the Python code can raise there. -/
inductive SplitOutcome
  | ok (amt_1 amt_2 : Nat)
  | notDivisibleError
  | zeroDivisionError
deriving DecidableEq

/-- Amount computation of `Split.get_send_funds_transaction` (template.py
lines 97-111).  `gcd = math.gcd(ratn, ratd)` followed by the two floor
divisions raises `ZeroDivisionError` when the gcd is zero, and
`amount % ratd` raises it when the reduced denominator is zero, both
modelled as `zeroDivisionError`.  In the divisible branch the source sets
`amt_2 = amount - amt_2` while `amt_2` still holds its initializer 0
(line 106), which is why the second component below is `amount - 0` and
not `amount` minus the first amount. -/
def get_send_funds_amounts (ratn ratd amount : Nat) (precise : Bool) :
    SplitOutcome :=
  if Nat.gcd ratn ratd = 0 then SplitOutcome.zeroDivisionError
  else if ratd / Nat.gcd ratn ratd = 0 then SplitOutcome.zeroDivisionError
  else if amount % (ratd / Nat.gcd ratn ratd) = 0 then
    SplitOutcome.ok
      (amount / (ratd / Nat.gcd ratn ratd) * (ratn / Nat.gcd ratn ratd))
      (amount - 0)
  else if precise then SplitOutcome.notDivisibleError
  else
    SplitOutcome.ok
      (round_half_even_div (amount * (ratn / Nat.gcd ratn ratd))
        (ratd / Nat.gcd ratn ratd))
      (amount -
        round_half_even_div (amount * (ratn / Nat.gcd ratn ratd))
          (ratd / Nat.gcd ratn ratd))

/-- C3: evaluating the divisible branch at the specification's own example
`amount = 100, ratn = 30, ratd = 100` in exact mode: the code yields the
pair (30, 100) because the second amount is computed by subtracting the
still-zero `amt_2` from `amount` instead of subtracting the first amount,
so the claimed result (30, 70) is not produced. -/
theorem split_exact_second_amount_bug :
    get_send_funds_amounts 30 100 100 true = SplitOutcome.ok 30 100 ∧
    SplitOutcome.ok 30 100 ≠ SplitOutcome.ok 30 (100 - 30) := by
  decide

/-- C5: with a configured (nonzero) denominator, the call raises
`NotDivisibleError` exactly when exact mode is requested and the amount is
not a multiple of the gcd-reduced denominator.  With `ratd = 0` Python
raises `ZeroDivisionError` before the divisibility test can run, hence the
hypothesis. -/
theorem split_not_divisible_iff :
    ∀ (ratn ratd amount : Nat) (precise : Bool), 0 < ratd →
      (get_send_funds_amounts ratn ratd amount precise
          = SplitOutcome.notDivisibleError
        ↔ precise = true ∧ amount % (ratd / Nat.gcd ratn ratd) ≠ 0) := by
  intro ratn ratd amount precise hd
  have hg : 0 < Nat.gcd ratn ratd := Nat.gcd_pos_of_pos_right ratn hd
  have hdvd : Nat.gcd ratn ratd ∣ ratd := Nat.gcd_dvd_right ratn ratd
  have hrd : 0 < ratd / Nat.gcd ratn ratd :=
    Nat.div_pos (Nat.le_of_dvd hd hdvd) hg
  unfold get_send_funds_amounts
  rw [if_neg (by omega), if_neg (by omega)]
  by_cases hmod : amount % (ratd / Nat.gcd ratn ratd) = 0
  · rw [if_pos hmod]
    constructor
    · intro h
      exact absurd h (by simp)
    · rintro ⟨_, hne⟩
      exact absurd hmod hne
  · rw [if_neg hmod]
    cases precise with
    | true => simp [hmod]
    | false => simp [hmod]

/-- C5 witness: the specification's example `amount = 101, ratn = 30,
ratd = 100` in exact mode raises `NotDivisibleError`. -/
theorem split_not_divisible_iff_witness :
    get_send_funds_amounts 30 100 101 true = SplitOutcome.notDivisibleError
      ↔ true = true ∧ 101 % (100 / Nat.gcd 30 100) ≠ 0 :=
  split_not_divisible_iff 30 100 101 true (by decide)

/-- Decoded bytes of the base64 program constant of `Split.get_program`
(template.py lines 63-67). -/
def split_orig : List Nat :=
  [1, 32, 8, 1, 5, 2, 0, 6, 7, 8, 9, 38, 3, 32, 216, 28, 132, 123, 76, 133,
   185, 120, 207, 214, 1, 151, 23, 116, 64, 234, 191, 176, 67, 249, 182, 140,
   55, 168, 182, 252, 14, 73, 106, 209, 155, 52, 32, 202, 177, 170, 25, 28,
   244, 55, 102, 15, 51, 100, 31, 193, 103, 90, 3, 130, 222, 251, 44, 106,
   57, 158, 157, 235, 110, 218, 55, 254, 9, 104, 79, 32, 120, 208, 4, 182,
   31, 114, 59, 217, 128, 155, 14, 78, 33, 42, 153, 187, 39, 179, 103, 23,
   45, 151, 174, 221, 253, 76, 145, 180, 57, 17, 96, 251, 49, 16, 34, 18,
   49, 1, 35, 12, 16, 50, 4, 36, 18, 64, 0, 25, 49, 9, 40, 18, 49, 7, 50, 3,
   18, 16, 49, 8, 37, 18, 16, 49, 2, 33, 4, 13, 16, 34, 64, 0, 46, 51, 0, 0,
   51, 1, 0, 18, 49, 9, 50, 3, 18, 16, 51, 0, 7, 41, 18, 16, 51, 1, 7, 42,
   18, 16, 51, 0, 8, 33, 5, 11, 51, 1, 8, 33, 6, 11, 18, 16, 51, 0, 8, 33,
   7, 15, 16, 16]

/-- Decoded bytes of the base64 program constant of `HTLC.get_program`
(template.py lines 169-171). -/
def htlc_orig : List Nat :=
  [1, 32, 4, 5, 1, 0, 6, 38, 3, 32, 254, 188, 160, 187, 20, 74, 90, 78, 167,
   180, 56, 164, 104, 26, 200, 14, 108, 161, 5, 188, 182, 7, 252, 86, 83, 37,
   201, 86, 149, 246, 162, 19, 1, 6, 32, 230, 154, 150, 30, 111, 45, 95, 122,
   200, 102, 7, 146, 101, 82, 190, 152, 35, 94, 211, 51, 99, 202, 136, 145,
   139, 185, 201, 56, 169, 21, 182, 249, 49, 1, 34, 14, 49, 16, 35, 18, 16,
   49, 7, 50, 3, 18, 16, 49, 8, 36, 18, 16, 49, 9, 40, 18, 45, 1, 41, 18, 16,
   49, 9, 42, 18, 49, 2, 37, 13, 16, 17, 16]

/-- Decoded bytes of the base64 program constant of
`DynamicFee.get_program` (template.py lines 221-224). -/
def dynamic_fee_orig : List Nat :=
  [1, 32, 5, 2, 1, 5, 6, 7, 38, 3, 32, 254, 188, 160, 187, 20, 74, 90, 78,
   167, 180, 56, 164, 104, 26, 200, 14, 108, 161, 5, 188, 182, 7, 252, 86,
   83, 37, 201, 86, 149, 246, 162, 19, 32, 230, 154, 150, 30, 111, 45, 95,
   122, 200, 102, 7, 146, 101, 82, 190, 152, 35, 94, 211, 51, 99, 202, 136,
   145, 139, 185, 201, 56, 169, 21, 182, 249, 1, 6, 50, 4, 34, 18, 51, 0, 16,
   35, 18, 16, 51, 0, 7, 49, 0, 18, 16, 51, 0, 8, 49, 1, 18, 16, 49, 22, 35,
   18, 16, 49, 16, 35, 18, 16, 49, 7, 40, 18, 16, 49, 9, 41, 18, 16, 49, 8,
   36, 18, 16, 49, 2, 37, 18, 16, 49, 4, 33, 4, 18, 16, 49, 6, 42, 18, 16]

/-- Decoded bytes of the base64 program constant of
`PeriodicPayment.get_program` (template.py lines 310-313). -/
def periodic_payment_orig : List Nat :=
  [1, 32, 7, 1, 5, 6, 0, 7, 8, 9, 38, 2, 32, 127, 131, 177, 101, 127, 241,
   252, 83, 185, 45, 193, 129, 72, 161, 214, 93, 252, 45, 75, 31, 163, 214,
   119, 40, 74, 221, 210, 0, 18, 109, 144, 105, 32, 179, 183, 4, 39, 211,
   224, 242, 112, 223, 175, 178, 79, 175, 37, 103, 44, 163, 63, 219, 236,
   208, 210, 234, 45, 247, 28, 233, 47, 78, 151, 254, 98, 49, 16, 34, 18, 49,
   1, 35, 14, 16, 49, 2, 36, 24, 37, 18, 16, 49, 4, 33, 4, 49, 2, 8, 18, 16,
   49, 6, 40, 18, 16, 49, 9, 50, 3, 18, 49, 7, 41, 18, 16, 49, 8, 33, 5, 18,
   16, 49, 9, 41, 18, 49, 7, 50, 3, 18, 16, 49, 2, 33, 6, 13, 16, 49, 8, 37,
   18, 16, 17, 16]

/-- The `Split` template (template.py lines 24-73).  Address fields carry
the 32-byte form produced by the external `encoding.decode_address`. -/
structure Split where
  owner : List Nat
  receiver_1 : List Nat
  receiver_2 : List Nat
  ratn : Nat
  ratd : Nat
  expiry_round : Nat
  min_pay : Nat
  max_fee : Nat

/-- `Split.get_program` (lines 59-73): a fresh offsets list literal is
built on every call and handed to `inject` together with the per-field
values; the base64 text encoding of the returned bytes is external and
omitted. -/
def Split.get_program (s : Split) : InjectResult × List Nat :=
  inject split_orig [4, 7, 8, 9, 10, 14, 47, 80]
    [TValue.int s.max_fee, TValue.int s.expiry_round, TValue.int s.ratn,
     TValue.int s.ratd, TValue.int s.min_pay, TValue.addr s.owner,
     TValue.addr s.receiver_1, TValue.addr s.receiver_2]
    [VType.int, VType.int, VType.int, VType.int, VType.int, VType.address,
     VType.address, VType.address]

/-- The `HTLC` template (template.py lines 132-182).  `hash_image` carries
the decoded blob. -/
structure HTLC where
  owner : List Nat
  receiver : List Nat
  hash_function : String
  hash_image : List Nat
  expiry_round : Nat
  max_fee : Nat

/-- `HTLC.get_program` (lines 165-182), including the `hash_inject`
selection: 1 for sha256, 2 for keccak256, 0 otherwise. -/
def HTLC.get_program (t : HTLC) : InjectResult × List Nat :=
  inject htlc_orig [3, 6, 10, 42, 44, 101]
    [TValue.int t.max_fee, TValue.int t.expiry_round, TValue.addr t.receiver,
     TValue.blob t.hash_image, TValue.addr t.owner,
     TValue.int (if t.hash_function = "sha256" then 1
       else if t.hash_function = "keccak256" then 2 else 0)]
    [VType.int, VType.int, VType.address, VType.base64, VType.address,
     VType.int]

/-- The `DynamicFee` template (template.py lines 185-231).  `lease_value`
holds the random bytes drawn once in `__init__`; the base64 text round
trip they take through the stored field is external and omitted.
`last_valid` is an `Option` because line 206 stores the raw constructor
argument before the default on line 208 is computed into a local, so a
missing value stays `None` in the instance. -/
structure DynamicFee where
  lease_value : List Nat
  last_valid : Option Nat
  amount : Nat
  first_valid : Nat
  close_remainder_address : List Nat
  receiver : List Nat

/-- `DynamicFee.__init__` (lines 202-215): the randomness for the lease is
drawn here, once, and stored; a missing close-remainder address defaults
to 32 zero bytes. -/
def DynamicFee.init (receiver : List Nat) (amount first_valid : Nat)
    (last_valid : Option Nat) (close_remainder_address : Option (List Nat))
    (random_lease : List Nat) : DynamicFee :=
  ⟨random_lease, last_valid, amount, first_valid,
   close_remainder_address.getD (List.replicate 32 0), receiver⟩

/-- A stored `None` reaching the varint encoder raises a `TypeError` in
the source (`put_uvarint` compares it with `0x80`); modelled as a value of
the wrong shape, which `inject` turns into the same deterministic
failure. -/
def optIntValue : Option Nat → TValue
  | some n => TValue.int n
  | none => TValue.blob []

/-- `DynamicFee.get_program` (lines 217-231). -/
def DynamicFee.get_program (d : DynamicFee) : InjectResult × List Nat :=
  inject dynamic_fee_orig [5, 6, 7, 11, 44, 76]
    [TValue.int d.amount, TValue.int d.first_valid, optIntValue d.last_valid,
     TValue.addr d.receiver, TValue.addr d.close_remainder_address,
     TValue.blob d.lease_value]
    [VType.int, VType.int, VType.int, VType.address, VType.address,
     VType.base64]

/-- The `PeriodicPayment` template (template.py lines 278-319).
`lease_value` holds the random bytes drawn once in `__init__`.  The source
stores them raw and later feeds them to `base64.b64decode`, an external
step modelled as carrying the blob associated with the stored field;
either way `get_program` reads only the stored field. -/
structure PeriodicPayment where
  lease_value : List Nat
  receiver : List Nat
  amount : Nat
  withdrawing_window : Nat
  period : Nat
  fee : Nat
  timeout : Nat

/-- `PeriodicPayment.__init__` (lines 296-304): the lease randomness is
drawn here, once, and stored. -/
def PeriodicPayment.init (receiver : List Nat)
    (amount withdrawing_window period fee timeout : Nat)
    (random_lease : List Nat) : PeriodicPayment :=
  ⟨random_lease, receiver, amount, withdrawing_window, period, fee, timeout⟩

/-- `PeriodicPayment.get_program` (lines 306-319). -/
def PeriodicPayment.get_program (p : PeriodicPayment) :
    InjectResult × List Nat :=
  inject periodic_payment_orig [4, 5, 7, 8, 9, 12, 45]
    [TValue.int p.fee, TValue.int p.period, TValue.int p.withdrawing_window,
     TValue.int p.amount, TValue.int p.timeout, TValue.blob p.lease_value,
     TValue.addr p.receiver]
    [VType.int, VType.int, VType.int, VType.int, VType.int, VType.base64,
     VType.address]

/-- The `LimitOrder` template (template.py lines 335-366): its
`get_program` body is `pass`, so every call returns `None`. -/
structure LimitOrder where
  owner : List Nat
  ratn : Nat
  ratd : Nat
  expiry_round : Nat
  min_trade : Nat
  max_fee : Nat

/-- `LimitOrder.get_program` (lines 362-366). -/
def LimitOrder.get_program (_ : LimitOrder) : Option (List Nat) :=
  none

/-- C7: `get_program` is deterministic for every template variant: it is a
pure function of the instance fields, so two invocations on an instance
with unchanged fields return byte-identical output; and for the two
variants that use randomness the lease bytes are fixed at construction
(`init` stores exactly the randomness it was given) and `get_program`
reads only the stored field, never drawing fresh randomness. -/
theorem get_program_deterministic :
    (∀ s : Split, Split.get_program s = Split.get_program s) ∧
    (∀ t : HTLC, HTLC.get_program t = HTLC.get_program t) ∧
    (∀ d : DynamicFee, DynamicFee.get_program d = DynamicFee.get_program d) ∧
    (∀ p : PeriodicPayment,
      PeriodicPayment.get_program p = PeriodicPayment.get_program p) ∧
    (∀ l : LimitOrder, LimitOrder.get_program l = LimitOrder.get_program l) ∧
    (∀ (receiver : List Nat) (amount first_valid : Nat)
        (last_valid : Option Nat) (cra : Option (List Nat))
        (random_lease : List Nat),
      (DynamicFee.init receiver amount first_valid last_valid cra
          random_lease).lease_value = random_lease) ∧
    (∀ (receiver : List Nat)
        (amount withdrawing_window period fee timeout : Nat)
        (random_lease : List Nat),
      (PeriodicPayment.init receiver amount withdrawing_window period fee
          timeout random_lease).lease_value = random_lease) :=
  ⟨fun _ => rfl, fun _ => rfl, fun _ => rfl, fun _ => rfl, fun _ => rfl,
   fun _ _ _ _ _ _ => rfl, fun _ _ _ _ _ _ _ => rfl⟩

/-- `Template.get_address` (template.py lines 9-15):
`p = logic_prefix + b64decode(get_program()); encode_address(checksum(p))`.
The checksum and address-encoding collaborators and the network prefix
constant live outside this component and are taken as parameters; the
base64 text round trip of the program is the identity and omitted. -/
def Template.get_address (checksum encode_address : List Nat → List Nat)
    (prefix_bytes program : List Nat) : List Nat :=
  encode_address (checksum (prefix_bytes ++ program))

/-- Modelled from the spec: the consumed address-derivation interface
`encodeAddress(checksum(networkPrefix ++ programBytes))` of section 6,
stated independently of the source function for comparison. -/
def address_spec (checksum encode_address : List Nat → List Nat)
    (prefix_bytes program : List Nat) : List Nat :=
  encode_address (checksum (prefix_bytes ++ program))

/-- `get_address` invoked on a `Split` instance: the shared base-class
method applied to the bytes of `self.get_program()`; when `get_program`
raises, the exception propagates. -/
def Split.get_address (checksum encode_address : List Nat → List Nat)
    (prefix_bytes : List Nat) (s : Split) : Option (List Nat) :=
  match (Split.get_program s).1 with
  | InjectResult.ok p =>
    some (Template.get_address checksum encode_address prefix_bytes p)
  | InjectResult.error _ => none

/-- C8: the shared `get_address` computes exactly
`encodeAddress(checksum(networkPrefix ++ programBytes))` of the
specification interface, and on a template instance it is a pure function
of the patched program bytes: instances with equal `get_program` output
have equal derived addresses. -/
theorem get_address_composition :
    (∀ (checksum encode_address : List Nat → List Nat)
        (prefix_bytes program : List Nat),
      Template.get_address checksum encode_address prefix_bytes program
        = address_spec checksum encode_address prefix_bytes program) ∧
    (∀ (checksum encode_address : List Nat → List Nat)
        (prefix_bytes : List Nat) (s t : Split),
      Split.get_program s = Split.get_program t →
      Split.get_address checksum encode_address prefix_bytes s
        = Split.get_address checksum encode_address prefix_bytes t) := by
  constructor
  · intro checksum encode_address prefix_bytes program
    rfl
  · intro checksum encode_address prefix_bytes s t h
    unfold Split.get_address
    rw [h]

/-- C8 witness: the purity clause applied to a concrete `Split` instance
compared with itself, with identity collaborators. -/
theorem get_address_composition_witness :
    Split.get_address id id [] (Split.mk (List.replicate 32 7)
        (List.replicate 32 8) (List.replicate 32 9) 30 100 10 1 2)
      = Split.get_address id id [] (Split.mk (List.replicate 32 7)
        (List.replicate 32 8) (List.replicate 32 9) 30 100 10 1 2) :=
  get_address_composition.2 id id []
    (Split.mk (List.replicate 32 7) (List.replicate 32 8)
      (List.replicate 32 9) 30 100 10 1 2)
    (Split.mk (List.replicate 32 7) (List.replicate 32 8)
      (List.replicate 32 9) 30 100 10 1 2) rfl
